import Mathlib

/-!
Verification of the facial-emotion-recognition core: a shallow embedding of
`landmark_utils.py` and `emotion_classifier.py` over exact reals.

A landmark set is modelled as a total map from MediaPipe Face Mesh indices to
2D points; a Python dict is modelled as an association list with `Option`-valued
lookup, so a `KeyError` shows up as `none` propagating through the computation.
-/

noncomputable section

/-- A 2D point: (x, y) pixel coordinates. -/
abbrev Point := ℝ × ℝ

/-- A landmark set: one 2D point per MediaPipe Face Mesh landmark index. -/
abbrev Landmarks := ℕ → Point

/-- `np.linalg.norm(p1 - p2)`: plain 2D Euclidean distance. -/
def euclidean_distance (p1 p2 : Point) : ℝ :=
  Real.sqrt ((p1.1 - p2.1) ^ 2 + (p1.2 - p2.2) ^ 2)

/-- The six landmark indices of one eye, in the order p1..p6 used by
`compute_ear` and `compute_eye_position` (the Python lists destructure into
exactly six points). -/
structure EyeIndices where
  i1 : ℕ
  i2 : ℕ
  i3 : ℕ
  i4 : ℕ
  i5 : ℕ
  i6 : ℕ

/-- `RIGHT_EYE = [33, 160, 158, 133, 153, 144]` -/
def RIGHT_EYE : EyeIndices := ⟨33, 160, 158, 133, 153, 144⟩

/-- `LEFT_EYE = [362, 385, 387, 263, 373, 380]` -/
def LEFT_EYE : EyeIndices := ⟨362, 385, 387, 263, 373, 380⟩

def MOUTH_TOP : ℕ := 13
def MOUTH_BOTTOM : ℕ := 14
def MOUTH_UPPER_INNER_LEFT : ℕ := 82
def MOUTH_LOWER_INNER_LEFT : ℕ := 87
def MOUTH_UPPER_INNER_RIGHT : ℕ := 312
def MOUTH_LOWER_INNER_RIGHT : ℕ := 317
def MOUTH_LEFT_CORNER : ℕ := 61
def MOUTH_RIGHT_CORNER : ℕ := 291
def FACE_LEFT : ℕ := 234
def FACE_RIGHT : ℕ := 454
def FACE_TOP : ℕ := 10
def FACE_BOTTOM : ℕ := 152

/-- Eye Aspect Ratio = (‖p2-p6‖ + ‖p3-p5‖) / (2 * ‖p1-p4‖), 0.0 on a
zero-length horizontal. -/
def compute_ear (landmarks : Landmarks) (eye : EyeIndices) : ℝ :=
  let p1 := landmarks eye.i1
  let p2 := landmarks eye.i2
  let p3 := landmarks eye.i3
  let p4 := landmarks eye.i4
  let p5 := landmarks eye.i5
  let p6 := landmarks eye.i6
  let vertical_a := euclidean_distance p2 p6
  let vertical_b := euclidean_distance p3 p5
  let horizontal := euclidean_distance p1 p4
  if horizontal = 0 then 0 else (vertical_a + vertical_b) / (2 * horizontal)

/-- Mouth Aspect Ratio: three vertical distances divided by horizontal width,
0.0 on a zero-length horizontal. -/
def compute_mar (landmarks : Landmarks) : ℝ :=
  let vertical_a := euclidean_distance (landmarks MOUTH_TOP) (landmarks MOUTH_BOTTOM)
  let vertical_b := euclidean_distance (landmarks MOUTH_UPPER_INNER_LEFT) (landmarks MOUTH_LOWER_INNER_LEFT)
  let vertical_c := euclidean_distance (landmarks MOUTH_UPPER_INNER_RIGHT) (landmarks MOUTH_LOWER_INNER_RIGHT)
  let horizontal := euclidean_distance (landmarks MOUTH_LEFT_CORNER) (landmarks MOUTH_RIGHT_CORNER)
  if horizontal = 0 then 0 else (vertical_a + vertical_b + vertical_c) / (3 * horizontal)

/-- Mouth corner distance normalized by face width, 0.0 on zero face width. -/
def compute_mouth_width (landmarks : Landmarks) : ℝ :=
  let mouth_w := euclidean_distance (landmarks MOUTH_LEFT_CORNER) (landmarks MOUTH_RIGHT_CORNER)
  let face_w := euclidean_distance (landmarks FACE_LEFT) (landmarks FACE_RIGHT)
  if face_w = 0 then 0 else mouth_w / face_w

/-- Vertical elevation of mouth corners relative to mouth center, normalized
by face height, 0.0 on zero face height. -/
def compute_smile_coefficient (landmarks : Landmarks) : ℝ :=
  let corner_avg_y := ((landmarks MOUTH_LEFT_CORNER).2 + (landmarks MOUTH_RIGHT_CORNER).2) / 2
  let center_y := (landmarks MOUTH_TOP).2
  let face_h := euclidean_distance (landmarks FACE_TOP) (landmarks FACE_BOTTOM)
  if face_h = 0 then 0 else (center_y - corner_avg_y) / face_h

/-- `pts[:, 0].min()` over the six eye points. -/
def eye_min_x (landmarks : Landmarks) (eye : EyeIndices) : ℝ :=
  min (landmarks eye.i1).1 (min (landmarks eye.i2).1 (min (landmarks eye.i3).1
    (min (landmarks eye.i4).1 (min (landmarks eye.i5).1 (landmarks eye.i6).1))))

/-- `pts[:, 0].max()` over the six eye points. -/
def eye_max_x (landmarks : Landmarks) (eye : EyeIndices) : ℝ :=
  max (landmarks eye.i1).1 (max (landmarks eye.i2).1 (max (landmarks eye.i3).1
    (max (landmarks eye.i4).1 (max (landmarks eye.i5).1 (landmarks eye.i6).1))))

/-- `pts[:, 1].min()` over the six eye points. -/
def eye_min_y (landmarks : Landmarks) (eye : EyeIndices) : ℝ :=
  min (landmarks eye.i1).2 (min (landmarks eye.i2).2 (min (landmarks eye.i3).2
    (min (landmarks eye.i4).2 (min (landmarks eye.i5).2 (landmarks eye.i6).2))))

/-- `pts[:, 1].max()` over the six eye points. -/
def eye_max_y (landmarks : Landmarks) (eye : EyeIndices) : ℝ :=
  max (landmarks eye.i1).2 (max (landmarks eye.i2).2 (max (landmarks eye.i3).2
    (max (landmarks eye.i4).2 (max (landmarks eye.i5).2 (landmarks eye.i6).2))))

/-- x-coordinate of `pts.mean(axis=0)` over the six eye points. -/
def eye_center_x (landmarks : Landmarks) (eye : EyeIndices) : ℝ :=
  ((landmarks eye.i1).1 + (landmarks eye.i2).1 + (landmarks eye.i3).1 +
    (landmarks eye.i4).1 + (landmarks eye.i5).1 + (landmarks eye.i6).1) / 6

/-- y-coordinate of `pts.mean(axis=0)` over the six eye points. -/
def eye_center_y (landmarks : Landmarks) (eye : EyeIndices) : ℝ :=
  ((landmarks eye.i1).2 + (landmarks eye.i2).2 + (landmarks eye.i3).2 +
    (landmarks eye.i4).2 + (landmarks eye.i5).2 + (landmarks eye.i6).2) / 6

/-- Iris center position relative to eye bounding box; 0.5 on an axis whose
extent is not positive. -/
def compute_eye_position (landmarks : Landmarks) (eye : EyeIndices) : Point :=
  let w := eye_max_x landmarks eye - eye_min_x landmarks eye
  let h := eye_max_y landmarks eye - eye_min_y landmarks eye
  let rel_x := if w > 0 then (eye_center_x landmarks eye - eye_min_x landmarks eye) / w else 0.5
  let rel_y := if h > 0 then (eye_center_y landmarks eye - eye_min_y landmarks eye) / h else 0.5
  (rel_x, rel_y)

/-- A Python dict value in the parameter dict: either a scalar signal or an
eye-position pair. -/
inductive EntryVal where
  | scalar (x : ℝ)
  | pair (p : Point)

/-- The parameter dict: an association of signal names to values. -/
abbrev Params := List (String × EntryVal)

/-- Python dict lookup `d[k]`: `none` models a `KeyError`. -/
def dict_get (params : Params) (k : String) : Option EntryVal :=
  match params with
  | [] => none
  | (k2, v) :: rest => if k2 = k then some v else dict_get rest k

/-- Reading a scalar signal out of the dict; `none` models a `KeyError` (or a
non-scalar value where a float is required). -/
def get_scalar (params : Params) (k : String) : Option ℝ :=
  match dict_get params k with
  | some (EntryVal.scalar x) => some x
  | _ => none

/-- `extract_all_parameters`: compute all facial parameters and return them as
a dict (`landmark_utils.py` lines 86-108). -/
def extract_all_parameters (landmarks : Landmarks) : Params :=
  let ear_right := compute_ear landmarks RIGHT_EYE
  let ear_left := compute_ear landmarks LEFT_EYE
  let ear_avg := (ear_right + ear_left) / 2
  let mar := compute_mar landmarks
  let mouth_width := compute_mouth_width landmarks
  let smile_coeff := compute_smile_coefficient landmarks
  let eye_pos_right := compute_eye_position landmarks RIGHT_EYE
  let eye_pos_left := compute_eye_position landmarks LEFT_EYE
  [("ear_right", EntryVal.scalar ear_right),
   ("ear_left", EntryVal.scalar ear_left),
   ("ear_avg", EntryVal.scalar ear_avg),
   ("mar", EntryVal.scalar mar),
   ("mouth_width", EntryVal.scalar mouth_width),
   ("smile_coeff", EntryVal.scalar smile_coeff),
   ("eye_pos_right", EntryVal.pair eye_pos_right),
   ("eye_pos_left", EntryVal.pair eye_pos_left)]

def SMILE_COEFF_HIGH : ℝ := 0.005
def SMILE_COEFF_NEGATIVE : ℝ := -0.005
def EAR_HIGH : ℝ := 0.30
def EAR_LOW : ℝ := 0.26
def MAR_HIGH : ℝ := 0.5
def MAR_MODERATE : ℝ := 0.15
def MAR_LOW : ℝ := 0.1
def MOUTH_WIDTH_SMILE : ℝ := 0.43
def BROW_DIST_LOW : ℝ := 0.055
def DELTA_SMILE_HIGH : ℝ := 0.006
def DELTA_SMILE_LOW : ℝ := -0.006
def DELTA_EAR_HIGH : ℝ := 0.04
def DELTA_EAR_LOW : ℝ := -0.03
def DELTA_MAR_HIGH : ℝ := 0.35
def DELTA_MAR_MOD : ℝ := 0.08
def DELTA_MAR_LOW : ℝ := -0.01
def DELTA_MW_SMILE : ℝ := 0.015
def DELTA_BROW_LOW : ℝ := -0.02

/-- Original absolute-threshold classification (`_classify_absolute`).
All five signals are read from the dict before any rule is evaluated, exactly
as in the Python function body; a missing key yields `none` (`KeyError`). -/
def _classify_absolute (params : Params) : Option String := do
  let ear ← get_scalar params "ear_avg"
  let mar ← get_scalar params "mar"
  let smile ← get_scalar params "smile_coeff"
  let mouth_width ← get_scalar params "mouth_width"
  let brow_dist ← get_scalar params "brow_dist"
  if ear > EAR_HIGH ∧ mar > MAR_HIGH then pure "Surprised"
  else if smile > SMILE_COEFF_HIGH ∧ (mar ≥ MAR_LOW ∨ mouth_width > MOUTH_WIDTH_SMILE) then
    pure "Happy"
  else if smile < SMILE_COEFF_HIGH ∧ brow_dist < BROW_DIST_LOW then pure "Angry"
  else if smile < SMILE_COEFF_HIGH ∧ ear < EAR_LOW ∧ mar < MAR_MODERATE then pure "Angry"
  else if smile < SMILE_COEFF_NEGATIVE ∧ ear ≥ EAR_LOW ∧ brow_dist ≥ BROW_DIST_LOW then
    pure "Sad"
  else pure "Neutral"

/-- Delta-from-neutral classification (`_classify_delta`). Each delta reads
the current dict then the baseline dict, in the Python evaluation order. -/
def _classify_delta (params baseline : Params) : Option String := do
  let p_ear ← get_scalar params "ear_avg"
  let b_ear ← get_scalar baseline "ear_avg"
  let d_ear := p_ear - b_ear
  let p_mar ← get_scalar params "mar"
  let b_mar ← get_scalar baseline "mar"
  let d_mar := p_mar - b_mar
  let p_smile ← get_scalar params "smile_coeff"
  let b_smile ← get_scalar baseline "smile_coeff"
  let d_smile := p_smile - b_smile
  let p_mw ← get_scalar params "mouth_width"
  let b_mw ← get_scalar baseline "mouth_width"
  let d_mw := p_mw - b_mw
  let p_brow ← get_scalar params "brow_dist"
  let b_brow ← get_scalar baseline "brow_dist"
  let d_brow := p_brow - b_brow
  if d_ear > DELTA_EAR_HIGH ∧ d_mar > DELTA_MAR_HIGH then pure "Surprised"
  else if d_smile > DELTA_SMILE_HIGH ∧ (d_mar > DELTA_MAR_LOW ∨ d_mw > DELTA_MW_SMILE) then
    pure "Happy"
  else if d_smile < -DELTA_SMILE_HIGH ∧ d_brow < DELTA_BROW_LOW then pure "Angry"
  else if d_smile < -DELTA_SMILE_HIGH ∧ d_ear < DELTA_EAR_LOW ∧ d_mar < DELTA_MAR_MOD then
    pure "Angry"
  else if d_smile < DELTA_SMILE_LOW ∧ d_ear ≥ DELTA_EAR_LOW ∧ d_brow ≥ DELTA_BROW_LOW then
    pure "Sad"
  else pure "Neutral"

/-- `classify_emotion(params, baseline=None)`: delta mode when a baseline is
present, absolute mode otherwise. -/
def classify_emotion (params : Params) (baseline : Option Params) : Option String :=
  match baseline with
  | none => _classify_absolute params
  | some b => _classify_delta params b

/-- A five-signal vector with the fixed scalar key set the classifier and the
persisted record schema use. -/
def mk_signal_vector (ear mar smile mouth brow : ℝ) : Params :=
  [("ear_avg", EntryVal.scalar ear),
   ("mar", EntryVal.scalar mar),
   ("smile_coeff", EntryVal.scalar smile),
   ("mouth_width", EntryVal.scalar mouth),
   ("brow_dist", EntryVal.scalar brow)]

/-- A landmark set with every point at the origin: every normalization
denominator is zero. -/
def lm_zero : Landmarks := fun _ => (0, 0)

/-- A landmark set whose right-eye points all share the x-coordinate 0 (zero
bounding-box width, hence zero area) while index 144 sits at y = 6, giving a
nonzero bounding-box height. -/
def lm_flat_x : Landmarks := fun i => if i = 144 then (0, 6) else (0, 0)

/-- A landmark set where only index 33 is moved to (1, 0): the right-eye
horizontal distance is 1. -/
def lm_unit_x : Landmarks := fun i => if i = 33 then (1, 0) else (0, 0)

lemma gse_ear_avg (lm : Landmarks) :
    get_scalar (extract_all_parameters lm) "ear_avg" =
      some ((compute_ear lm RIGHT_EYE + compute_ear lm LEFT_EYE) / 2) := rfl

lemma gse_mar (lm : Landmarks) :
    get_scalar (extract_all_parameters lm) "mar" = some (compute_mar lm) := rfl

lemma gse_smile (lm : Landmarks) :
    get_scalar (extract_all_parameters lm) "smile_coeff" =
      some (compute_smile_coefficient lm) := rfl

lemma gse_mw (lm : Landmarks) :
    get_scalar (extract_all_parameters lm) "mouth_width" =
      some (compute_mouth_width lm) := rfl

lemma gse_brow (lm : Landmarks) :
    get_scalar (extract_all_parameters lm) "brow_dist" = none := rfl

lemma gsm_ear (e m s w b : ℝ) :
    get_scalar (mk_signal_vector e m s w b) "ear_avg" = some e := rfl

lemma gsm_mar (e m s w b : ℝ) :
    get_scalar (mk_signal_vector e m s w b) "mar" = some m := rfl

lemma gsm_smile (e m s w b : ℝ) :
    get_scalar (mk_signal_vector e m s w b) "smile_coeff" = some s := rfl

lemma gsm_mw (e m s w b : ℝ) :
    get_scalar (mk_signal_vector e m s w b) "mouth_width" = some w := rfl

lemma gsm_brow (e m s w b : ℝ) :
    get_scalar (mk_signal_vector e m s w b) "brow_dist" = some b := rfl

/-- Claim C1: the spec fixes the Signal Vector key set to include `brow_dist`
(the classifier and the persisted record schema both read it), but
`extract_all_parameters` emits `ear_avg`, `mar`, `smile_coeff` and
`mouth_width` while never emitting `brow_dist`: the lookup of `brow_dist` in
its result is a `KeyError` (`none`) for every landmark set. -/
theorem extract_all_parameters_missing_brow_dist (lm : Landmarks) :
    (get_scalar (extract_all_parameters lm) "ear_avg").isSome = true ∧
    (get_scalar (extract_all_parameters lm) "mar").isSome = true ∧
    (get_scalar (extract_all_parameters lm) "smile_coeff").isSome = true ∧
    (get_scalar (extract_all_parameters lm) "mouth_width").isSome = true ∧
    get_scalar (extract_all_parameters lm) "brow_dist" = none ∧
    dict_get (extract_all_parameters lm) "brow_dist" = none :=
  ⟨rfl, rfl, rfl, rfl, rfl, rfl⟩

/-- Claim C2: for every landmark set and every (possibly absent) baseline,
composing the classifier with the extractor is undefined: the classifier
unconditionally reads `params["brow_dist"]`, a key `extract_all_parameters`
never emits, so the per-frame pipeline raises a `KeyError` (modelled as
`none`) on every frame with a detected face. -/
theorem classify_emotion_extract_keyerror (lm : Landmarks) (baseline : Option Params) :
    classify_emotion (extract_all_parameters lm) baseline = none := by
  cases baseline with
  | none =>
      show _classify_absolute _ = _
      rw [_classify_absolute]
      simp only [gse_ear_avg, gse_mar, gse_smile, gse_mw, gse_brow,
        Option.bind_eq_bind, Option.some_bind, Option.none_bind]
  | some b =>
      show _classify_delta _ _ = _
      rw [_classify_delta]
      simp only [gse_ear_avg, gse_mar, gse_smile, gse_mw, gse_brow,
        Option.bind_eq_bind, Option.some_bind, Option.none_bind]
      cases get_scalar b "ear_avg" <;> cases get_scalar b "mar" <;>
        cases get_scalar b "smile_coeff" <;> cases get_scalar b "mouth_width" <;>
        simp only [Option.some_bind, Option.none_bind]

/-- Claim C3 counterexample: the Sad smile-delta gate `DELTA_SMILE_LOW = -0.006`
does not have strictly smaller magnitude than the Angry gate
`-DELTA_SMILE_HIGH = -0.006`; the two magnitudes are equal. -/
theorem delta_smile_sad_gate_not_strictly_smaller :
    ¬ |DELTA_SMILE_LOW| < |-DELTA_SMILE_HIGH| := by
  norm_num [DELTA_SMILE_LOW, DELTA_SMILE_HIGH]

/-- Claim C3 amended: the Sad smile-delta gate and the Angry smile-delta gate
of `_classify_delta` have equal magnitude (both 0.006), so the two comparisons
`d_smile < DELTA_SMILE_LOW` and `d_smile < -DELTA_SMILE_HIGH` coincide. -/
theorem delta_smile_gates_equal_magnitude :
    |DELTA_SMILE_LOW| = |-DELTA_SMILE_HIGH| ∧
    ∀ d : ℝ, (d < DELTA_SMILE_LOW ↔ d < -DELTA_SMILE_HIGH) := by
  norm_num [DELTA_SMILE_LOW, DELTA_SMILE_HIGH]

lemma min6_le_avg (a b c d e f : ℝ) :
    min a (min b (min c (min d (min e f)))) ≤ (a + b + c + d + e + f) / 6 := by
  have h1 : min a (min b (min c (min d (min e f)))) ≤ a := min_le_left _ _
  have hbc : min a (min b (min c (min d (min e f)))) ≤ min b (min c (min d (min e f))) :=
    min_le_right _ _
  have h2 := le_trans hbc (min_le_left _ _)
  have hcd := le_trans hbc (min_le_right _ _)
  have h3 := le_trans hcd (min_le_left _ _)
  have hde := le_trans hcd (min_le_right _ _)
  have h4 := le_trans hde (min_le_left _ _)
  have hef := le_trans hde (min_le_right _ _)
  have h5 := le_trans hef (min_le_left _ _)
  have h6 := le_trans hef (min_le_right _ _)
  linarith

lemma avg_le_max6 (a b c d e f : ℝ) :
    (a + b + c + d + e + f) / 6 ≤ max a (max b (max c (max d (max e f)))) := by
  have h1 : a ≤ max a (max b (max c (max d (max e f)))) := le_max_left _ _
  have hbc : max b (max c (max d (max e f))) ≤ max a (max b (max c (max d (max e f)))) :=
    le_max_right _ _
  have h2 := le_trans (le_max_left _ _) hbc
  have hcd := le_trans (le_max_right _ _) hbc
  have h3 := le_trans (le_max_left _ _) hcd
  have hde := le_trans (le_max_right _ _) hcd
  have h4 := le_trans (le_max_left _ _) hde
  have hef := le_trans (le_max_right _ _) hde
  have h5 := le_trans (le_max_left _ _) hef
  have h6 := le_trans (le_max_right _ _) hef
  linarith

lemma compute_eye_position_fst (lm : Landmarks) (eye : EyeIndices) :
    (compute_eye_position lm eye).1 =
      if eye_max_x lm eye - eye_min_x lm eye > 0 then
        (eye_center_x lm eye - eye_min_x lm eye) / (eye_max_x lm eye - eye_min_x lm eye)
      else 0.5 := rfl

lemma compute_eye_position_snd (lm : Landmarks) (eye : EyeIndices) :
    (compute_eye_position lm eye).2 =
      if eye_max_y lm eye - eye_min_y lm eye > 0 then
        (eye_center_y lm eye - eye_min_y lm eye) / (eye_max_y lm eye - eye_min_y lm eye)
      else 0.5 := rfl

lemma eye_min_x_le_center (lm : Landmarks) (eye : EyeIndices) :
    eye_min_x lm eye ≤ eye_center_x lm eye := min6_le_avg _ _ _ _ _ _

lemma eye_center_x_le_max (lm : Landmarks) (eye : EyeIndices) :
    eye_center_x lm eye ≤ eye_max_x lm eye := avg_le_max6 _ _ _ _ _ _

lemma eye_min_y_le_center (lm : Landmarks) (eye : EyeIndices) :
    eye_min_y lm eye ≤ eye_center_y lm eye := min6_le_avg _ _ _ _ _ _

lemma eye_center_y_le_max (lm : Landmarks) (eye : EyeIndices) :
    eye_center_y lm eye ≤ eye_max_y lm eye := avg_le_max6 _ _ _ _ _ _

/-- Claim C4 amended: for every landmark set, `compute_eye_position` returns a
pair with each component in [0, 1]; a component is 0.5 whenever its own axis of
the bounding box is degenerate (zero width for x, zero height for y). The
original claim that a zero-AREA box forces 0.5 on BOTH axes is false: the two
axes are handled independently. -/
theorem compute_eye_position_range_and_degenerate_axes (lm : Landmarks) (eye : EyeIndices) :
    (0 ≤ (compute_eye_position lm eye).1 ∧ (compute_eye_position lm eye).1 ≤ 1) ∧
    (0 ≤ (compute_eye_position lm eye).2 ∧ (compute_eye_position lm eye).2 ≤ 1) ∧
    (eye_max_x lm eye - eye_min_x lm eye = 0 → (compute_eye_position lm eye).1 = 0.5) ∧
    (eye_max_y lm eye - eye_min_y lm eye = 0 → (compute_eye_position lm eye).2 = 0.5) := by
  refine ⟨?_, ?_, ?_, ?_⟩
  · rw [compute_eye_position_fst]
    by_cases hw : eye_max_x lm eye - eye_min_x lm eye > 0
    · rw [if_pos hw]
      constructor
      · exact div_nonneg (by linarith [eye_min_x_le_center lm eye]) (le_of_lt hw)
      · rw [div_le_one hw]
        linarith [eye_center_x_le_max lm eye]
    · rw [if_neg hw]
      norm_num
  · rw [compute_eye_position_snd]
    by_cases hh : eye_max_y lm eye - eye_min_y lm eye > 0
    · rw [if_pos hh]
      constructor
      · exact div_nonneg (by linarith [eye_min_y_le_center lm eye]) (le_of_lt hh)
      · rw [div_le_one hh]
        linarith [eye_center_y_le_max lm eye]
    · rw [if_neg hh]
      norm_num
  · intro h0
    rw [compute_eye_position_fst, h0]
    norm_num
  · intro h0
    rw [compute_eye_position_snd, h0]
    norm_num

/-- Claim C4 counterexample: the right-eye bounding box of `lm_flat_x` has zero
width (all six x-coordinates are 0), hence zero area, yet the y-component of
`compute_eye_position` is 1/6, not 0.5. -/
theorem compute_eye_position_zero_area_counterexample :
    eye_max_x lm_flat_x RIGHT_EYE - eye_min_x lm_flat_x RIGHT_EYE = 0 ∧
    (compute_eye_position lm_flat_x RIGHT_EYE).2 = 1 / 6 ∧ ((1 : ℝ) / 6) ≠ 0.5 := by
  refine ⟨?_, ?_, by norm_num⟩
  · norm_num [eye_max_x, eye_min_x, lm_flat_x, RIGHT_EYE]
  · rw [compute_eye_position_snd]
    norm_num [eye_max_y, eye_min_y, eye_center_y, lm_flat_x, RIGHT_EYE]

/-- Claim C4 witness: on the all-zero landmark set the right-eye box has zero
width, the x-component is 0.5, and it lies in [0, 1]. -/
theorem compute_eye_position_range_witness :
    eye_max_x lm_zero RIGHT_EYE - eye_min_x lm_zero RIGHT_EYE = 0 ∧
    (compute_eye_position lm_zero RIGHT_EYE).1 = 0.5 ∧
    0 ≤ (compute_eye_position lm_zero RIGHT_EYE).1 := by
  have h := compute_eye_position_range_and_degenerate_axes lm_zero RIGHT_EYE
  have h0 : eye_max_x lm_zero RIGHT_EYE - eye_min_x lm_zero RIGHT_EYE = 0 := by
    norm_num [eye_max_x, eye_min_x, lm_zero]
  exact ⟨h0, h.2.2.1 h0, h.1.1⟩

/-- Claim C5: each extraction formula substitutes 0.0 for its signal when its
own normalization denominator is zero (eye horizontal for EAR, mouth horizontal
for MAR, face width for mouth width, face height for the smile coefficient),
and `extract_all_parameters` still carries every other signal as the value of
its own compute function, unaffected. The Lean functions are total, which is
the embedding of "extraction never raises". -/
theorem degenerate_geometry_yields_zero (lm : Landmarks) (eye : EyeIndices) :
    (euclidean_distance (lm eye.i1) (lm eye.i4) = 0 → compute_ear lm eye = 0) ∧
    (euclidean_distance (lm MOUTH_LEFT_CORNER) (lm MOUTH_RIGHT_CORNER) = 0 →
      compute_mar lm = 0) ∧
    (euclidean_distance (lm FACE_LEFT) (lm FACE_RIGHT) = 0 → compute_mouth_width lm = 0) ∧
    (euclidean_distance (lm FACE_TOP) (lm FACE_BOTTOM) = 0 →
      compute_smile_coefficient lm = 0) ∧
    get_scalar (extract_all_parameters lm) "ear_avg" =
      some ((compute_ear lm RIGHT_EYE + compute_ear lm LEFT_EYE) / 2) ∧
    get_scalar (extract_all_parameters lm) "mar" = some (compute_mar lm) ∧
    get_scalar (extract_all_parameters lm) "mouth_width" = some (compute_mouth_width lm) ∧
    get_scalar (extract_all_parameters lm) "smile_coeff" =
      some (compute_smile_coefficient lm) := by
  refine ⟨?_, ?_, ?_, ?_, rfl, rfl, rfl, rfl⟩ <;> intro h <;>
    simp only [compute_ear, compute_mar, compute_mouth_width, compute_smile_coefficient] <;>
    rw [if_pos h]

/-- Claim C5 witness: on the all-zero landmark set every denominator is zero
and all four signals evaluate to 0. -/
theorem degenerate_geometry_witness :
    euclidean_distance (lm_zero 33) (lm_zero 133) = 0 ∧
    compute_ear lm_zero RIGHT_EYE = 0 ∧ compute_mar lm_zero = 0 ∧
    compute_mouth_width lm_zero = 0 ∧ compute_smile_coefficient lm_zero = 0 := by
  have hd : ∀ i j : ℕ, euclidean_distance (lm_zero i) (lm_zero j) = 0 := by
    intro i j
    norm_num [euclidean_distance, lm_zero]
  have h := degenerate_geometry_yields_zero lm_zero RIGHT_EYE
  exact ⟨hd 33 133, h.1 (hd _ _), h.2.1 (hd _ _), h.2.2.1 (hd _ _), h.2.2.2.1 (hd _ _)⟩

/-- Claim C6: in absolute mode, any signal vector that satisfies both the
Surprised condition and the Happy condition is classified "Surprised": the
Surprised rule is evaluated first. -/
theorem surprised_shadows_happy (ear mar smile mw brow : ℝ)
    (h1 : ear > EAR_HIGH) (h2 : mar > MAR_HIGH)
    (h3 : smile > SMILE_COEFF_HIGH) (h4 : mar ≥ MAR_LOW ∨ mw > MOUTH_WIDTH_SMILE) :
    classify_emotion (mk_signal_vector ear mar smile mw brow) none = some "Surprised" := by
  show _classify_absolute _ = _
  rw [_classify_absolute]
  simp only [gsm_ear, gsm_mar, gsm_smile, gsm_mw, gsm_brow, Option.bind_eq_bind,
    Option.some_bind]
  rw [if_pos ⟨h1, h2⟩]
  rfl

/-- Claim C6 witness: the concrete vector (0.35, 0.55, 0.01, 0.5, 0.07)
satisfies both the Surprised and the Happy condition and is classified
"Surprised". -/
theorem surprised_shadows_happy_witness :
    ((0.35 : ℝ) > EAR_HIGH ∧ (0.55 : ℝ) > MAR_HIGH ∧ (0.01 : ℝ) > SMILE_COEFF_HIGH ∧
      ((0.55 : ℝ) ≥ MAR_LOW ∨ (0.5 : ℝ) > MOUTH_WIDTH_SMILE)) ∧
    classify_emotion (mk_signal_vector 0.35 0.55 0.01 0.5 0.07) none = some "Surprised" := by
  refine ⟨⟨by norm_num [EAR_HIGH], by norm_num [MAR_HIGH], by norm_num [SMILE_COEFF_HIGH],
    Or.inl (by norm_num [MAR_LOW])⟩, ?_⟩
  exact surprised_shadows_happy 0.35 0.55 0.01 0.5 0.07 (by norm_num [EAR_HIGH])
    (by norm_num [MAR_HIGH]) (by norm_num [SMILE_COEFF_HIGH]) (Or.inl (by norm_num [MAR_LOW]))

/-- Claim C7: in delta mode with baseline (ear 0.28, mar 0.12, smile 0.0,
mouth width 0.35, brow 0.06) and current signals (ear 0.27, mar 0.1,
smile -0.01, mouth width 0.34, brow 0.03), the classifier returns "Angry":
the smile delta -0.01 is below -0.006 and the brow delta -0.03 is below
-0.02. -/
theorem delta_scenario_angry :
    classify_emotion (mk_signal_vector 0.27 0.1 (-0.01) 0.34 0.03)
      (some (mk_signal_vector 0.28 0.12 0 0.35 0.06)) = some "Angry" := by
  show _classify_delta _ _ = _
  rw [_classify_delta]
  simp only [gsm_ear, gsm_mar, gsm_smile, gsm_mw, gsm_brow, Option.bind_eq_bind,
    Option.some_bind]
  norm_num [DELTA_EAR_HIGH, DELTA_MAR_HIGH, DELTA_SMILE_HIGH, DELTA_MAR_LOW,
    DELTA_MW_SMILE, DELTA_BROW_LOW, DELTA_EAR_LOW, DELTA_MAR_MOD, DELTA_SMILE_LOW]

/-- Claim C8: in absolute mode the signal vector (ear 0.28, mar 0.2,
smile 0.01, mouth width 0.5, brow 0.07) is classified "Happy": the smile
coefficient exceeds 0.005 and the MAR is at least 0.1. -/
theorem absolute_scenario_happy :
    classify_emotion (mk_signal_vector 0.28 0.2 0.01 0.5 0.07) none = some "Happy" := by
  show _classify_absolute _ = _
  rw [_classify_absolute]
  simp only [gsm_ear, gsm_mar, gsm_smile, gsm_mw, gsm_brow, Option.bind_eq_bind,
    Option.some_bind]
  norm_num [EAR_HIGH, MAR_HIGH, SMILE_COEFF_HIGH, MAR_LOW, MOUTH_WIDTH_SMILE,
    SMILE_COEFF_NEGATIVE, EAR_LOW, MAR_MODERATE, BROW_DIST_LOW]

/-- Claim C9: when the eye horizontal distance is nonzero, `compute_ear` is
exactly (dist(p2,p6) + dist(p3,p5)) / (2 * dist(p1,p4)) with plain 2D Euclidean
distances, and `extract_all_parameters` sets `ear_avg` to the arithmetic mean
of the right-eye and left-eye EAR values. -/
theorem compute_ear_formula_and_average (lm : Landmarks) (eye : EyeIndices)
    (h : euclidean_distance (lm eye.i1) (lm eye.i4) ≠ 0) :
    compute_ear lm eye =
      (euclidean_distance (lm eye.i2) (lm eye.i6) +
        euclidean_distance (lm eye.i3) (lm eye.i5)) /
        (2 * euclidean_distance (lm eye.i1) (lm eye.i4)) ∧
    get_scalar (extract_all_parameters lm) "ear_avg" =
      some ((compute_ear lm RIGHT_EYE + compute_ear lm LEFT_EYE) / 2) := by
  refine ⟨?_, rfl⟩
  simp only [compute_ear]
  rw [if_neg h]

/-- Claim C9 witness: on `lm_unit_x` the right-eye horizontal distance is 1,
so the EAR formula applies. -/
theorem compute_ear_formula_witness :
    euclidean_distance (lm_unit_x 33) (lm_unit_x 133) ≠ 0 ∧
    compute_ear lm_unit_x RIGHT_EYE =
      (euclidean_distance (lm_unit_x 160) (lm_unit_x 144) +
        euclidean_distance (lm_unit_x 158) (lm_unit_x 153)) /
        (2 * euclidean_distance (lm_unit_x 33) (lm_unit_x 133)) := by
  have h : euclidean_distance (lm_unit_x 33) (lm_unit_x 133) = 1 := by
    norm_num [euclidean_distance, lm_unit_x, Real.sqrt_one]
  exact ⟨by rw [h]; norm_num,
    (compute_ear_formula_and_average lm_unit_x RIGHT_EYE
      (by show euclidean_distance (lm_unit_x 33) (lm_unit_x 133) ≠ 0
          rw [h]; norm_num)).1⟩

/-- Claim C10: `classify_emotion` is a pure function, so identical (signal
vector, baseline) inputs — with the baseline absent or present — give
identical results, and on any five-signal vector the result is always one of
the five labels Happy, Surprised, Angry, Sad, Neutral. -/
theorem classify_emotion_deterministic_and_closed
    (ear mar smile mw brow e2 m2 s2 w2 b2 : ℝ) :
    (classify_emotion (mk_signal_vector ear mar smile mw brow) none =
        classify_emotion (mk_signal_vector ear mar smile mw brow) none ∧
      classify_emotion (mk_signal_vector ear mar smile mw brow) none ∈
        [some "Happy", some "Surprised", some "Angry", some "Sad", some "Neutral"]) ∧
    (classify_emotion (mk_signal_vector ear mar smile mw brow)
          (some (mk_signal_vector e2 m2 s2 w2 b2)) =
        classify_emotion (mk_signal_vector ear mar smile mw brow)
          (some (mk_signal_vector e2 m2 s2 w2 b2)) ∧
      classify_emotion (mk_signal_vector ear mar smile mw brow)
          (some (mk_signal_vector e2 m2 s2 w2 b2)) ∈
        [some "Happy", some "Surprised", some "Angry", some "Sad", some "Neutral"]) := by
  refine ⟨⟨rfl, ?_⟩, rfl, ?_⟩
  · show _classify_absolute _ ∈ _
    rw [_classify_absolute]
    simp only [gsm_ear, gsm_mar, gsm_smile, gsm_mw, gsm_brow, Option.bind_eq_bind,
      Option.some_bind]
    split_ifs <;> simp
  · show _classify_delta _ _ ∈ _
    rw [_classify_delta]
    simp only [gsm_ear, gsm_mar, gsm_smile, gsm_mw, gsm_brow, Option.bind_eq_bind,
      Option.some_bind]
    split_ifs <;> simp

end
